import Mathlib

/-!
Shallow embedding of `libraries/AP_NavEKF3/AP_NavEKF3_Outputs.cpp`
(NavEKF3_core output, health and status reporting functions).

Modelling conventions:
* `float`/`double` scalars are modelled exactly as rationals `ℚ`
  (exact arithmetic model of the intended real-valued computation);
  the square roots taken in `getVariances` / `send_status_report`
  are modelled over `ℝ` with `Real.sqrt`.
* `uint32_t` millisecond timestamps are modelled as `ℕ` together with
  the wrap-around subtraction `u32sub` used for elapsed-time checks.
* Out-parameter functions returning `bool` are modelled as functions
  returning the written values paired with / wrapped in the `Bool`
  (`Option` when the out-parameter may be left untouched on failure).
* External collaborators (DAL, GPS driver, airspeed driver, geodesic
  `Location` math, frontend parameters) are passed in explicitly as an
  `Env` / `Frontend` record; their fields are oracles and are
  universally quantified in the theorems.
-/

namespace NavEKF3

/-- Wrap-around subtraction of `uint32_t` millisecond counters:
`a - b` in 32-bit unsigned arithmetic. -/
def u32sub (a b : ℕ) : ℕ :=
  (a + (2 ^ 32 - b % 2 ^ 32)) % 2 ^ 32

/-- Square of a rational, the `sq` helper used by the source. -/
def sq (x : ℚ) : ℚ := x * x

/-- Two-dimensional float vector (`Vector2f`). -/
structure Vec2 where
  x : ℚ
  y : ℚ
deriving DecidableEq, Repr

/-- Three-dimensional float vector (`Vector3f`). -/
structure Vec3 where
  x : ℚ
  y : ℚ
  z : ℚ
deriving DecidableEq, Repr

/-- Geographic location (`struct Location`): latitude and longitude in
1e-7 degrees (`int32_t`), altitude in centimetres (exact model of the
`int32_t` centimetre field). -/
structure Location where
  lat : ℤ
  lng : ℤ
  alt : ℚ
deriving DecidableEq, Repr

/-- Aiding mode `PV_AidingMode` of the filter. -/
inductive AidingMode where
  | AID_ABSOLUTE
  | AID_NONE
  | AID_RELATIVE
deriving DecidableEq, Repr

/-- Horizontal velocity source selector (`AP_NavEKF_Source::SourceXY`),
restricted to the constructors the output code dispatches on. -/
inductive SourceXY where
  | NONE
  | GPS
  | BEACON
  | OPTFLOW
  | EXTNAV
  | WHEEL_ENCODER
deriving DecidableEq, Repr

/-- Fault status booleans of `NavEKF3_core::faultStatus` read by
`getFilterFaults`. -/
structure FaultStatusFlags where
  bad_xmag : Bool
  bad_ymag : Bool
  bad_zmag : Bool
  bad_airspeed : Bool
  bad_sideslip : Bool
deriving DecidableEq, Repr

/-- Filter status flags (`nav_filter_status`) read by the output code. -/
structure NavFilterStatus where
  attitude : Bool
  horiz_vel : Bool
  vert_vel : Bool
  horiz_pos_rel : Bool
  horiz_pos_abs : Bool
  vert_pos : Bool
  terrain_alt : Bool
  const_pos_mode : Bool
  pred_horiz_pos_rel : Bool
  pred_horiz_pos_abs : Bool
  initalized : Bool
  gps_glitching : Bool
deriving DecidableEq, Repr

/-- GPS fix status values of `AP_DAL_GPS` as used by the source
(`status >= GPS_OK_FIX_2D`, `status >= GPS_OK_FIX_3D`). -/
def GPS_OK_FIX_2D : ℕ := 2

/-- GPS 3D fix status threshold of `AP_DAL_GPS`. -/
def GPS_OK_FIX_3D : ℕ := 3

/-- External GPS driver state (`dal.gps()` for the selected receiver). -/
structure GpsData where
  status : ℕ
  location : Location

/-- External collaborators: the DAL sensor drivers, system clock and the
geodesic `Location` helpers that live outside this translation unit.
`get_distance_NE` and `location_offset` model
`Location::get_distance_NE` / `Location::offset`; `Location::offset`
adjusts only latitude and longitude, never altitude, so it is modelled
as returning the new `(lat, lng)` pair. -/
structure Env where
  gps : GpsData
  millis : ℕ
  assume_zero_sideslip : Bool
  airspeed_present : Bool
  airspeed_num_sensors : ℕ
  get_distance_NE : Location → Location → Vec2
  location_offset : ℤ → ℤ → ℚ → ℚ → ℤ × ℤ

/-- Frontend (`NavEKF3`) parameters read by the output code.
The affinity bit tests `_affinity & EKF_AFFINITY_ARSP` and
`_affinity & EKF_AFFINITY_MAG` are modelled as booleans; `_originHgtMode`
keeps its integer form because the source tests bit 2 of it. -/
structure Frontend where
  affinity_arsp : Bool
  affinity_mag : Bool
  originHgtMode : ℕ
  useRngSwHgt_pos : Bool

/-- Snapshot of the `NavEKF3_core` member state read by the output,
health and status reporting functions. -/
structure Core where
  quat_is_nan : Bool
  velocity_is_nan : Bool
  faultStatus : FaultStatusFlags
  statesInitialised : Bool
  velTestRatio : ℚ
  posTestRatio : ℚ
  hgtTestRatio : ℚ
  tasTestRatio : ℚ
  magTestRatio : Vec3
  yawTestRatio : ℚ
  auxRngTestRatio : ℚ
  imuSampleTime_ms : ℕ
  ekfStartTime_ms : ℕ
  innovVelPos : Fin 6 → ℚ
  hgtInnovFiltState : ℚ
  onGround : Bool
  PV_AidingMode : AidingMode
  tiltAlignComplete : Bool
  yawAlignComplete : Bool
  outputDataNew_position : Vec3
  posOffsetNED : Vec3
  validOrigin : Bool
  EKF_origin : Location
  rngBcnAlignmentStarted : Bool
  receiverPos : Vec3
  lastKnownPositionNE : Vec2
  terrainState : ℚ
  hgtTimeout : Bool
  gndOffsetValid : Bool
  filterStatus : NavFilterStatus
  ekfGpsRefHgt : ℚ
  gpsVelInnov : Vec3
  gpsVelVarInnov : Vec3
  gpsVelInnovTime_ms : ℕ
  extNavVelInnov : Vec3
  extNavVelVarInnov : Vec3
  extNavVelInnovTime_ms : ℕ
  activeHgtSource_is_rangefinder : Bool
  flowDataValid : Bool
  posResetNE : Vec2

/-- Helper assembling the fault bitmask of `getFilterFaults` from its
eight boolean inputs, mirroring the shift-and-or expression of the
source. -/
def faultBits (quatNaN velNaN xmag ymag zmag aspd sideslip uninit : Bool) : ℕ :=
  quatNaN.toNat <<< 0 ||| velNaN.toNat <<< 1 ||| xmag.toNat <<< 2 |||
  ymag.toNat <<< 3 ||| zmag.toNat <<< 4 ||| aspd.toNat <<< 5 |||
  sideslip.toNat <<< 6 ||| uninit.toNat <<< 7

/-- Model of `NavEKF3_core::getFilterFaults`: the fault status as a
bitmasked integer (bit 0 NaN quaternion, bit 1 NaN velocity, bits 2-4
ill-conditioned X/Y/Z magnetometer fusion, bit 5 ill-conditioned
airspeed fusion, bit 6 ill-conditioned sideslip fusion, bit 7 filter
not initialised). -/
def getFilterFaults (c : Core) : ℕ :=
  faultBits c.quat_is_nan c.velocity_is_nan
    c.faultStatus.bad_xmag c.faultStatus.bad_ymag c.faultStatus.bad_zmag
    c.faultStatus.bad_airspeed c.faultStatus.bad_sideslip
    (! c.statesInitialised)

/-- Model of `NavEKF3_core::healthy`: the consolidated filter health
check. -/
def healthy (c : Core) : Bool :=
  if getFilterFaults c > 0 then
    false
  else if c.velTestRatio > 1 ∧ c.posTestRatio > 1 ∧ c.hgtTestRatio > 1 then
    false
  else if u32sub c.imuSampleTime_ms c.ekfStartTime_ms < 1000 then
    false
  else if c.onGround = true ∧ c.PV_AidingMode = AidingMode.AID_NONE ∧
      (sq (c.innovVelPos 3) + sq (c.innovVelPos 4) > 1 ∨ |c.hgtInnovFiltState| > 1) then
    false
  else
    true

/-- Model of `NavEKF3_core::errorScore`: the consolidated error score
used by the frontend to select the primary EKF lane. -/
def errorScore (fe : Frontend) (env : Env) (c : Core) : ℚ :=
  if c.tiltAlignComplete = true ∧ c.yawAlignComplete = true then
    let score0 := max 0 (1 / 2 * (c.velTestRatio + c.posTestRatio))
    let score1 := max score0 c.hgtTestRatio
    let score2 :=
      if env.assume_zero_sideslip = true ∧ env.airspeed_present = true ∧
          2 ≤ env.airspeed_num_sensors ∧ fe.affinity_arsp = true then
        max score1 (3 / 10 * c.tasTestRatio)
      else score1
    let score3 :=
      if fe.affinity_mag = true then
        max score2 (3 / 10 * (c.magTestRatio.x + c.magTestRatio.y + c.magTestRatio.z))
      else score2
    score3
  else 0

/-- Model of `NavEKF3_core::getPosNE`: the last estimated NE position of
the body frame origin relative to the reference point, paired with the
validity flag the function returns. -/
def getPosNE (env : Env) (c : Core) : Vec2 × Bool :=
  if c.PV_AidingMode ≠ AidingMode.AID_NONE then
    (⟨c.outputDataNew_position.x + c.posOffsetNED.x,
      c.outputDataNew_position.y + c.posOffsetNED.y⟩, true)
  else if c.validOrigin = true then
    if GPS_OK_FIX_2D ≤ env.gps.status then
      (env.get_distance_NE c.EKF_origin env.gps.location, false)
    else if c.rngBcnAlignmentStarted = true then
      (⟨c.receiverPos.x, c.receiverPos.y⟩, false)
    else
      (⟨c.outputDataNew_position.x, c.outputDataNew_position.y⟩, false)
  else
    (⟨0, 0⟩, false)

/-- Model of `NavEKF3_core::getPosD`: the D position of the body frame
origin relative to the EKF origin in metres, paired with the height
solution status flag the function returns. -/
def getPosD (fe : Frontend) (c : Core) : ℚ × Bool :=
  (if fe.originHgtMode.testBit 2 = false then
     c.outputDataNew_position.z + c.posOffsetNED.z
   else
     c.outputDataNew_position.z + c.posOffsetNED.z +
       1 / 100 * c.EKF_origin.alt - c.ekfGpsRefHgt,
   c.filterStatus.vert_pos)

/-- Model of `NavEKF3_core::getHAGL`: the estimated height of the body
frame origin above ground level, paired with its validity flag. -/
def getHAGL (c : Core) : ℚ × Bool :=
  (c.terrainState - c.outputDataNew_position.z - c.posOffsetNED.z,
   ! c.hgtTimeout && c.gndOffsetValid && healthy c)

/-- Model of `NavEKF3_core::getOriginLLH`: the LLH location of the
filter's NED origin, `none` when no valid origin is set (the function
then returns `false` and leaves its out-parameter untouched). -/
def getOriginLLH (fe : Frontend) (c : Core) : Option Location :=
  if c.validOrigin = true then
    some { c.EKF_origin with
           alt := if fe.originHgtMode.testBit 2 = false then
                    100 * c.ekfGpsRefHgt
                  else c.EKF_origin.alt }
  else none

/-- Model of `NavEKF3_core::getGPSLLH`: a raw GPS location when a 3D fix
is available, `none` otherwise (out-parameter untouched). -/
def getGPSLLH (env : Env) : Option Location :=
  if GPS_OK_FIX_3D ≤ env.gps.status then some env.gps.location else none

/-- Model of `NavEKF3_core::getLLH`: the last calculated latitude,
longitude and height. `loc0` is the content of the caller's
out-parameter before the call, preserved on the paths that do not write
the corresponding field. -/
def getLLH (fe : Frontend) (env : Env) (c : Core) (loc0 : Location) :
    Location × Bool :=
  match getOriginLLH fe c with
  | some origin =>
    if (getPosD fe c).2 = true ∧ c.PV_AidingMode ≠ AidingMode.AID_NONE then
      let alt := origin.alt - (getPosD fe c).1 * 100
      if c.filterStatus.horiz_pos_abs = true ∨ c.filterStatus.horiz_pos_rel = true then
        let ll := env.location_offset c.EKF_origin.lat c.EKF_origin.lng
                    c.outputDataNew_position.x c.outputDataNew_position.y
        (⟨ll.1, ll.2, alt⟩, true)
      else
        match getGPSLLH env with
        | some g => (g, true)
        | none =>
          let ll := env.location_offset c.EKF_origin.lat c.EKF_origin.lng
                      c.outputDataNew_position.x c.outputDataNew_position.y
          (⟨ll.1, ll.2, alt⟩, false)
    else
      match getGPSLLH env with
      | some g => (g, true)
      | none =>
        let ll := env.location_offset c.EKF_origin.lat c.EKF_origin.lng
                    c.lastKnownPositionNE.x c.lastKnownPositionNE.y
        (⟨ll.1, ll.2, loc0.alt⟩, false)
  | none =>
    match getGPSLLH env with
    | some g => (g, true)
    | none => (loc0, false)

/-- Model of `NavEKF3_core::getVelInnovationsAndVariancesForSource`:
per-source velocity innovations and variances, `none` on failure
(staleness timeout or unsupported source). -/
def getVelInnovationsAndVariancesForSource (env : Env) (c : Core)
    (source : SourceXY) : Option (Vec3 × Vec3) :=
  match source with
  | SourceXY.GPS =>
    if u32sub env.millis c.gpsVelInnovTime_ms > 500 then none
    else some (c.gpsVelInnov, c.gpsVelVarInnov)
  | SourceXY.EXTNAV =>
    if u32sub env.millis c.extNavVelInnovTime_ms > 500 then none
    else some (c.extNavVelInnov, c.extNavVelVarInnov)
  | _ => none

/-- Three-dimensional real vector, for the square-root-valued outputs of
`getVariances`. -/
structure Vec3R where
  x : ℝ
  y : ℝ
  z : ℝ

/-- Output record of `NavEKF3_core::getVariances`. -/
structure VariancesOut where
  velVar : ℝ
  posVar : ℝ
  hgtVar : ℝ
  magVar : Vec3R
  tasVar : ℝ
  offset : Vec2

/-- Model of `NavEKF3_core::getVariances`: innovation consistency test
ratios reported as their square roots, each magnetometer axis taking the
larger of its own ratio and the yaw test ratio. -/
noncomputable def getVariances (c : Core) : VariancesOut where
  velVar := Real.sqrt c.velTestRatio
  posVar := Real.sqrt c.posTestRatio
  hgtVar := Real.sqrt c.hgtTestRatio
  magVar :=
    ⟨Real.sqrt ↑(max c.magTestRatio.x c.yawTestRatio),
     Real.sqrt ↑(max c.magTestRatio.y c.yawTestRatio),
     Real.sqrt ↑(max c.magTestRatio.z c.yawTestRatio)⟩
  tasVar := Real.sqrt c.tasTestRatio
  offset := c.posResetNE

/-- Modelled from the spec: the external mavlink `EKF_STATUS_FLAGS` bit
values used by `send_status_report` (status report bit layout of the
external interface; the enum itself is not part of this translation
unit). -/
def EKF_ATTITUDE : ℕ := 1

/-- Modelled from the spec: mavlink horizontal velocity flag (bit 1). -/
def EKF_VELOCITY_HORIZ : ℕ := 2

/-- Modelled from the spec: mavlink vertical velocity flag (bit 2). -/
def EKF_VELOCITY_VERT : ℕ := 4

/-- Modelled from the spec: mavlink relative horizontal position flag (bit 3). -/
def EKF_POS_HORIZ_REL : ℕ := 8

/-- Modelled from the spec: mavlink absolute horizontal position flag (bit 4). -/
def EKF_POS_HORIZ_ABS : ℕ := 16

/-- Modelled from the spec: mavlink absolute vertical position flag (bit 5). -/
def EKF_POS_VERT_ABS : ℕ := 32

/-- Modelled from the spec: mavlink above-ground vertical position flag (bit 6). -/
def EKF_POS_VERT_AGL : ℕ := 64

/-- Modelled from the spec: mavlink constant position mode flag (bit 7). -/
def EKF_CONST_POS_MODE : ℕ := 128

/-- Modelled from the spec: mavlink predicted relative horizontal position flag (bit 8). -/
def EKF_PRED_POS_HORIZ_REL : ℕ := 256

/-- Modelled from the spec: mavlink predicted absolute horizontal position flag (bit 9). -/
def EKF_PRED_POS_HORIZ_ABS : ℕ := 512

/-- Modelled from the spec: mavlink uninitialised flag (bit 10). -/
def EKF_UNINITIALIZED : ℕ := 1024

/-- Fields of the `EKF_STATUS_REPORT` mavlink message assembled by
`send_status_report`. -/
structure EkfStatusReport where
  flags : ℕ
  velVar : ℝ
  posVar : ℝ
  hgtVar : ℝ
  magVarMax : ℝ
  rngVar : ℝ
  tasVar : ℝ

/-- Model of `NavEKF3_core::send_status_report`: the EKF status message
sent to the GCS, captured as the record of field values passed to
`mavlink_msg_ekf_status_report_send`. -/
noncomputable def send_status_report (fe : Frontend) (c : Core) :
    EkfStatusReport :=
  let flags :=
    (if c.filterStatus.attitude then EKF_ATTITUDE else 0) |||
    (if c.filterStatus.horiz_vel then EKF_VELOCITY_HORIZ else 0) |||
    (if c.filterStatus.vert_vel then EKF_VELOCITY_VERT else 0) |||
    (if c.filterStatus.horiz_pos_rel then EKF_POS_HORIZ_REL else 0) |||
    (if c.filterStatus.horiz_pos_abs then EKF_POS_HORIZ_ABS else 0) |||
    (if c.filterStatus.vert_pos then EKF_POS_VERT_ABS else 0) |||
    (if c.filterStatus.terrain_alt then EKF_POS_VERT_AGL else 0) |||
    (if c.filterStatus.const_pos_mode then EKF_CONST_POS_MODE else 0) |||
    (if c.filterStatus.pred_horiz_pos_rel then EKF_PRED_POS_HORIZ_REL else 0) |||
    (if c.filterStatus.pred_horiz_pos_abs then EKF_PRED_POS_HORIZ_ABS else 0) |||
    (if ! c.filterStatus.initalized then EKF_UNINITIALIZED else 0) |||
    (if c.filterStatus.gps_glitching then 1 <<< 15 else 0)
  let v := getVariances c
  let temp :=
    if (fe.useRngSwHgt_pos = true ∧ c.activeHgtSource_is_rangefinder = true) ∨
        (c.PV_AidingMode = AidingMode.AID_RELATIVE ∧ c.flowDataValid = true) then
      Real.sqrt c.auxRngTestRatio
    else 0
  let mag_max := max (max v.magVar.x v.magVar.y) v.magVar.z
  { flags := flags
    velVar := v.velVar
    posVar := v.posVar
    hgtVar := v.hgtVar
    magVarMax := mag_max
    rngVar := temp
    tasVar := v.tasVar }

/-- Benign core snapshot used as the starting point of concrete test
states: no faults, zero ratios, aligned, aided, origin valid. -/
def baseCore : Core where
  quat_is_nan := false
  velocity_is_nan := false
  faultStatus :=
    { bad_xmag := false, bad_ymag := false, bad_zmag := false
      bad_airspeed := false, bad_sideslip := false }
  statesInitialised := true
  velTestRatio := 0
  posTestRatio := 0
  hgtTestRatio := 0
  tasTestRatio := 0
  magTestRatio := ⟨0, 0, 0⟩
  yawTestRatio := 0
  auxRngTestRatio := 0
  imuSampleTime_ms := 5000
  ekfStartTime_ms := 0
  innovVelPos := fun _ => 0
  hgtInnovFiltState := 0
  onGround := false
  PV_AidingMode := AidingMode.AID_ABSOLUTE
  tiltAlignComplete := true
  yawAlignComplete := true
  outputDataNew_position := ⟨3, 7, -2⟩
  posOffsetNED := ⟨1 / 2, -1 / 4, 1 / 5⟩
  validOrigin := true
  EKF_origin := ⟨123456789, 987654321, 5000⟩
  rngBcnAlignmentStarted := false
  receiverPos := ⟨12, -9 / 2, 1⟩
  lastKnownPositionNE := ⟨11, 13⟩
  terrainState := 25
  hgtTimeout := false
  gndOffsetValid := true
  filterStatus :=
    { attitude := true, horiz_vel := true, vert_vel := true
      horiz_pos_rel := true, horiz_pos_abs := true, vert_pos := true
      terrain_alt := true, const_pos_mode := false
      pred_horiz_pos_rel := true, pred_horiz_pos_abs := true
      initalized := true, gps_glitching := false }
  ekfGpsRefHgt := 40
  gpsVelInnov := ⟨1, 2, 3⟩
  gpsVelVarInnov := ⟨4, 5, 6⟩
  gpsVelInnovTime_ms := 4800
  extNavVelInnov := ⟨0, 0, 0⟩
  extNavVelVarInnov := ⟨0, 0, 0⟩
  extNavVelInnovTime_ms := 0
  activeHgtSource_is_rangefinder := false
  flowDataValid := false
  posResetNE := ⟨0, 0⟩

/-- Concrete environment used by test states: no GPS fix, fixed clock,
two airspeed sensors, identity-style geodesic oracles. -/
def baseEnv : Env where
  gps := { status := 1, location := ⟨111, 222, 777⟩ }
  millis := 5000
  assume_zero_sideslip := true
  airspeed_present := true
  airspeed_num_sensors := 2
  get_distance_NE := fun _ g => ⟨g.alt, g.alt⟩
  location_offset := fun lat lng _ _ => (lat, lng)

/-- Concrete frontend parameters used by test states. -/
def baseFrontend : Frontend where
  affinity_arsp := true
  affinity_mag := false
  originHgtMode := 0
  useRngSwHgt_pos := false

/-- Any of the eight fault conditions makes the fault bitmask positive
(the eighth bit is fed the negation of the initialisation flag). -/
theorem faultBits_pos (q v x y z a s i : Bool)
    (h : q = true ∨ v = true ∨ x = true ∨ y = true ∨ z = true ∨
         a = true ∨ s = true ∨ i = false) :
    0 < faultBits q v x y z a s (! i) := by
  revert h
  cases q <;> cases v <;> cases x <;> cases y <;> cases z <;>
    cases a <;> cases s <;> cases i <;> decide

/-- C1: if any of the eight fault conditions reported by
`getFilterFaults` holds (NaN quaternion, NaN velocity, ill-conditioned
X/Y/Z magnetometer fusion, ill-conditioned airspeed fusion,
ill-conditioned sideslip fusion, or filter not initialised), then
`healthy` returns `false`. -/
theorem C1_any_fault_implies_unhealthy (c : Core)
    (h : c.quat_is_nan = true ∨ c.velocity_is_nan = true ∨
         c.faultStatus.bad_xmag = true ∨ c.faultStatus.bad_ymag = true ∨
         c.faultStatus.bad_zmag = true ∨ c.faultStatus.bad_airspeed = true ∨
         c.faultStatus.bad_sideslip = true ∨ c.statesInitialised = false) :
    healthy c = false := by
  have hpos : 0 < getFilterFaults c :=
    faultBits_pos c.quat_is_nan c.velocity_is_nan
      c.faultStatus.bad_xmag c.faultStatus.bad_ymag c.faultStatus.bad_zmag
      c.faultStatus.bad_airspeed c.faultStatus.bad_sideslip
      c.statesInitialised h
  unfold healthy
  rw [if_pos hpos]

/-- Witness for C1: a concrete snapshot with a NaN quaternion fault is
unhealthy. -/
theorem C1_witness :
    { baseCore with quat_is_nan := true }.quat_is_nan = true ∧
    healthy { baseCore with quat_is_nan := true } = false :=
  ⟨rfl, C1_any_fault_implies_unhealthy _ (Or.inl rfl)⟩

/-- C2: with zero fault bits, if the velocity, position and height test
ratios are all above 1 simultaneously, `healthy` returns `false`. -/
theorem C2_compound_divergence_unhealthy (c : Core)
    (h0 : getFilterFaults c = 0)
    (hv : 1 < c.velTestRatio) (hp : 1 < c.posTestRatio)
    (hh : 1 < c.hgtTestRatio) :
    healthy c = false := by
  unfold healthy
  rw [if_neg (by omega), if_pos ⟨hv, hp, hh⟩]

/-- Witness for C2: with all three ratios equal to 2 and zero faults,
`healthy` is `false`. -/
theorem C2_witness :
    getFilterFaults { baseCore with
      velTestRatio := 2, posTestRatio := 2, hgtTestRatio := 2 } = 0 ∧
    healthy { baseCore with
      velTestRatio := 2, posTestRatio := 2, hgtTestRatio := 2 } = false :=
  ⟨by decide,
   C2_compound_divergence_unhealthy _ (by decide) (by decide) (by decide)
     (by decide)⟩

/-- C3: `getPosNE` reports validity `true` exactly when the aiding mode
is not `NONE`; when aiding is `NONE` and the origin is valid, the value
is produced by the first matching fallback tier: a GPS fix of 2D or
better yields the GPS position projected to NE relative to the origin,
else an in-progress range-beacon alignment yields the beacon-derived
receiver position, else the last filter position estimate. -/
theorem C3_getPosNE_validity_and_fallback (env : Env) (c : Core) :
    ((getPosNE env c).2 = true ↔ c.PV_AidingMode ≠ AidingMode.AID_NONE) ∧
    (c.PV_AidingMode = AidingMode.AID_NONE → c.validOrigin = true →
      (GPS_OK_FIX_2D ≤ env.gps.status →
        getPosNE env c =
          (env.get_distance_NE c.EKF_origin env.gps.location, false)) ∧
      (env.gps.status < GPS_OK_FIX_2D → c.rngBcnAlignmentStarted = true →
        getPosNE env c = (⟨c.receiverPos.x, c.receiverPos.y⟩, false)) ∧
      (env.gps.status < GPS_OK_FIX_2D → c.rngBcnAlignmentStarted = false →
        getPosNE env c =
          (⟨c.outputDataNew_position.x, c.outputDataNew_position.y⟩, false))) := by
  constructor
  · unfold getPosNE
    split_ifs with h1 h2 h3 h4 <;> simp [h1]
  · intro hm ho
    refine ⟨?_, ?_, ?_⟩
    · intro hg
      simp [getPosNE, hm, ho, hg]
    · intro hg hb
      simp [getPosNE, hm, ho, Nat.not_le_of_lt hg, hb]
    · intro hg hb
      simp [getPosNE, hm, ho, Nat.not_le_of_lt hg, hb]

/-- Witness for C3: with aiding `NONE`, a valid origin, no GPS fix and a
range-beacon alignment in progress with receiver position `(12, -4.5)`,
`getPosNE` returns `((12, -4.5), false)`. -/
theorem C3_witness :
    ({ baseCore with
        PV_AidingMode := AidingMode.AID_NONE,
        rngBcnAlignmentStarted := true } : Core).PV_AidingMode =
      AidingMode.AID_NONE ∧
    baseEnv.gps.status < GPS_OK_FIX_2D ∧
    getPosNE baseEnv { baseCore with
        PV_AidingMode := AidingMode.AID_NONE,
        rngBcnAlignmentStarted := true } = (⟨12, -9 / 2⟩, false) := by
  refine ⟨rfl, by decide, ?_⟩
  have h := C3_getPosNE_validity_and_fallback baseEnv
    { baseCore with
        PV_AidingMode := AidingMode.AID_NONE,
        rngBcnAlignmentStarted := true }
  rw [(h.2 rfl rfl).2.1 (by decide) rfl]
  rfl

/-- C10: in the dead-reckoning fallback tier of `getPosNE` (aiding
`NONE`, origin valid, no 2D-or-better GPS fix, beacon alignment not
started) the returned position is the raw filter position with no
lever-arm offset added, whereas the aiding-active branch adds the
lever-arm offset to the filter position. -/
theorem C10_deadreckoning_raw_position (env : Env) (c : Core) :
    (c.PV_AidingMode = AidingMode.AID_NONE → c.validOrigin = true →
      env.gps.status < GPS_OK_FIX_2D → c.rngBcnAlignmentStarted = false →
      getPosNE env c =
        (⟨c.outputDataNew_position.x, c.outputDataNew_position.y⟩, false)) ∧
    (c.PV_AidingMode ≠ AidingMode.AID_NONE →
      getPosNE env c =
        (⟨c.outputDataNew_position.x + c.posOffsetNED.x,
          c.outputDataNew_position.y + c.posOffsetNED.y⟩, true)) := by
  constructor
  · intro hm ho hg hb
    simp [getPosNE, hm, ho, Nat.not_le_of_lt hg, hb]
  · intro hm
    simp [getPosNE, hm]

/-- Witness for C10: concrete dead-reckoning state returns the raw
filter position `(3, 7)` without the lever-arm offset `(1/2, -1/4)`,
while the aided base state returns the offset position. -/
theorem C10_witness :
    getPosNE baseEnv { baseCore with
        PV_AidingMode := AidingMode.AID_NONE } = (⟨3, 7⟩, false) ∧
    getPosNE baseEnv baseCore = (⟨3 + 1 / 2, 7 + -1 / 4⟩, true) := by
  constructor
  · rw [(C10_deadreckoning_raw_position baseEnv
      { baseCore with PV_AidingMode := AidingMode.AID_NONE }).1
      rfl rfl (by decide) rfl]
    rfl
  · rw [(C10_deadreckoning_raw_position baseEnv baseCore).2 (by decide)]
    rfl

/-- C5 (amended): `errorScore` returns 0 whenever alignment is
incomplete. The converse of the original claim fails: an aligned
snapshot whose contributing ratios are all zero also scores 0. -/
theorem C5_incomplete_alignment_score_zero (fe : Frontend) (env : Env)
    (c : Core)
    (h : ¬ (c.tiltAlignComplete = true ∧ c.yawAlignComplete = true)) :
    errorScore fe env c = 0 := by
  unfold errorScore
  rw [if_neg h]

/-- Witness for C5: a concrete snapshot with tilt alignment incomplete
scores 0. -/
theorem C5_witness :
    ({ baseCore with tiltAlignComplete := false } : Core).tiltAlignComplete
      = false ∧
    errorScore baseFrontend baseEnv
      { baseCore with tiltAlignComplete := false } = 0 :=
  ⟨rfl,
   C5_incomplete_alignment_score_zero baseFrontend baseEnv _ (by decide)⟩

/-- Counterexample for C5 as stated: an aligned snapshot with all test
ratios zero has `errorScore` 0, so a zero score does not imply
incomplete alignment. -/
theorem C5_counterexample :
    errorScore baseFrontend baseEnv baseCore = 0 ∧
    baseCore.tiltAlignComplete = true ∧ baseCore.yawAlignComplete = true := by
  refine ⟨?_, rfl, rfl⟩
  norm_num [errorScore, baseCore, baseFrontend, baseEnv]

/-- C6: for aligned snapshots `errorScore` is monotonically
non-decreasing in each contributing test ratio (jointly in all of
them), and its value is unchanged by any variation of the airspeed test
ratio when the airspeed channel is inactive, and by any variation of
the magnetometer test ratios when magnetometer affinity is disabled. -/
theorem C6_errorScore_monotone_and_channel_gated (fe : Frontend)
    (env : Env) (c : Core) :
    (∀ c' : Core,
      c.tiltAlignComplete = true → c.yawAlignComplete = true →
      c'.tiltAlignComplete = true → c'.yawAlignComplete = true →
      c.velTestRatio ≤ c'.velTestRatio → c.posTestRatio ≤ c'.posTestRatio →
      c.hgtTestRatio ≤ c'.hgtTestRatio → c.tasTestRatio ≤ c'.tasTestRatio →
      c.magTestRatio.x ≤ c'.magTestRatio.x →
      c.magTestRatio.y ≤ c'.magTestRatio.y →
      c.magTestRatio.z ≤ c'.magTestRatio.z →
      errorScore fe env c ≤ errorScore fe env c') ∧
    (¬ (env.assume_zero_sideslip = true ∧ env.airspeed_present = true ∧
        2 ≤ env.airspeed_num_sensors ∧ fe.affinity_arsp = true) →
      ∀ t : ℚ, errorScore fe env { c with tasTestRatio := t } =
        errorScore fe env c) ∧
    (fe.affinity_mag = false →
      ∀ m : Vec3, errorScore fe env { c with magTestRatio := m } =
        errorScore fe env c) := by
  refine ⟨?_, ?_, ?_⟩
  · intro c' ht hy ht' hy' hv hp hh hs hx hmy hz
    simp only [errorScore, if_pos (And.intro ht hy), if_pos (And.intro ht' hy')]
    split_ifs <;> gcongr
  · intro hna t
    simp only [errorScore]
    split_ifs <;> first | rfl | simp_all
  · intro hm m
    simp only [errorScore]
    split_ifs <;> first | rfl | simp_all

/-- Witness for C6: raising every ratio from 0 to 1 on the aligned base
snapshot does not decrease the score; with magnetometer affinity
disabled the score ignores the magnetometer ratios; with fewer than two
airspeed sensors the score ignores the airspeed ratio. -/
theorem C6_witness :
    errorScore baseFrontend baseEnv baseCore ≤
      errorScore baseFrontend baseEnv
        { baseCore with velTestRatio := 1, posTestRatio := 1,
                        hgtTestRatio := 1, tasTestRatio := 1,
                        magTestRatio := ⟨1, 1, 1⟩ } ∧
    errorScore baseFrontend baseEnv
        { baseCore with magTestRatio := ⟨5, 6, 7⟩ } =
      errorScore baseFrontend baseEnv baseCore ∧
    errorScore baseFrontend { baseEnv with airspeed_num_sensors := 1 }
        { baseCore with tasTestRatio := 9 } =
      errorScore baseFrontend { baseEnv with airspeed_num_sensors := 1 }
        baseCore := by
  refine ⟨?_, ?_, ?_⟩
  · exact (C6_errorScore_monotone_and_channel_gated baseFrontend baseEnv
      baseCore).1 _ rfl rfl rfl rfl (by decide) (by decide) (by decide)
      (by decide) (by decide) (by decide) (by decide)
  · exact (C6_errorScore_monotone_and_channel_gated baseFrontend baseEnv
      baseCore).2.2 rfl ⟨5, 6, 7⟩
  · exact (C6_errorScore_monotone_and_channel_gated baseFrontend
      { baseEnv with airspeed_num_sensors := 1 } baseCore).2.1
      (by norm_num) 9

/-- C4 (amended): whenever `getLLH` computes its altitude from the EKF
solution (valid origin, valid vertical position, aiding active, and the
horizontal position capability flag set), the reported absolute
altitude equals the origin altitude reported by `getOriginLLH` minus
100 times the vertical position returned by `getPosD`, and under both
origin-height-reference-correction modes this altitude equals
`100 * ekfGpsRefHgt - 100 * (position.z + posOffsetNED.z)`, so it does
not depend on which mode is configured. -/
theorem C4_llh_altitude_mode_independent (fe : Frontend) (env : Env)
    (c : Core) (loc0 : Location)
    (ho : c.validOrigin = true)
    (hv : c.filterStatus.vert_pos = true)
    (hm : c.PV_AidingMode ≠ AidingMode.AID_NONE)
    (hf : c.filterStatus.horiz_pos_abs = true ∨
          c.filterStatus.horiz_pos_rel = true) :
    ∃ origin : Location, getOriginLLH fe c = some origin ∧
      (getLLH fe env c loc0).1.alt = origin.alt - (getPosD fe c).1 * 100 ∧
      (getLLH fe env c loc0).1.alt =
        100 * c.ekfGpsRefHgt -
          100 * (c.outputDataNew_position.z + c.posOffsetNED.z) := by
  have horigin : getOriginLLH fe c = some
      { c.EKF_origin with
        alt := if fe.originHgtMode.testBit 2 = false then
                 100 * c.ekfGpsRefHgt
               else c.EKF_origin.alt } := by
    unfold getOriginLLH
    rw [if_pos ho]
  refine ⟨_, horigin, ?_, ?_⟩
  · simp only [getLLH, horigin, getPosD]
    rw [if_pos (And.intro hv hm)]
    rcases hf with hf | hf <;> rw [if_pos (by simp [hf])]
  · simp only [getLLH, horigin, getPosD]
    rw [if_pos (And.intro hv hm)]
    rcases hf with hf | hf <;> rw [if_pos (by simp [hf])]
    all_goals by_cases hb : fe.originHgtMode.testBit 2 = false
    all_goals first
      | (rw [if_pos hb, if_pos hb]; ring)
      | (rw [if_neg hb, if_neg hb]; ring)

/-- Witness for C4: on the aided base snapshot with the EKF providing
the position, the reported altitude is `4180` centimetres in mode A
(`originHgtMode` bit 2 clear) and in mode B (bit 2 set) alike. -/
theorem C4_witness :
    baseCore.validOrigin = true ∧
    baseCore.PV_AidingMode ≠ AidingMode.AID_NONE ∧
    (getLLH baseFrontend baseEnv baseCore ⟨0, 0, 0⟩).1.alt = 4180 ∧
    (getLLH { baseFrontend with originHgtMode := 4 } baseEnv baseCore
      ⟨0, 0, 0⟩).1.alt = 4180 := by
  refine ⟨rfl, by decide, ?_, ?_⟩
  · obtain ⟨o, _, _, h2⟩ := C4_llh_altitude_mode_independent baseFrontend
      baseEnv baseCore ⟨0, 0, 0⟩ rfl rfl (by decide) (Or.inl rfl)
    rw [h2]
    norm_num [baseCore]
  · obtain ⟨o, _, _, h2⟩ := C4_llh_altitude_mode_independent
      { baseFrontend with originHgtMode := 4 }
      baseEnv baseCore ⟨0, 0, 0⟩ rfl rfl (by decide) (Or.inl rfl)
    rw [h2]
    norm_num [baseCore]

/-- Counterexample for C4 as stated: when the horizontal position
capability flags are clear and a raw 3D GPS fix is available, `getLLH`
reports the raw GPS altitude (777), not the origin altitude minus the
vertical position (4180), so the identity does not hold for every
state. -/
theorem C4_counterexample :
    (getLLH baseFrontend
        { baseEnv with gps := { status := 3, location := ⟨111, 222, 777⟩ } }
        { baseCore with
          filterStatus := { baseCore.filterStatus with
                            horiz_pos_abs := false, horiz_pos_rel := false } }
        ⟨0, 0, 0⟩).1.alt = 777 ∧
    ((getOriginLLH baseFrontend
        { baseCore with
          filterStatus := { baseCore.filterStatus with
                            horiz_pos_abs := false, horiz_pos_rel := false } }).map
      Location.alt).getD 0 -
      100 * (getPosD baseFrontend
        { baseCore with
          filterStatus := { baseCore.filterStatus with
                            horiz_pos_abs := false, horiz_pos_rel := false } }).1
      = 4180 ∧
    (777 : ℚ) ≠ 4180 := by
  refine ⟨?_, ?_, by norm_num⟩
  · norm_num [getLLH, getOriginLLH, getGPSLLH, getPosD, baseCore,
      baseFrontend, baseEnv, GPS_OK_FIX_3D]
  · norm_num [getOriginLLH, getPosD, baseCore, baseFrontend]

/-- The real square root is monotone; used to commute it with `max`
in the status-report magnetometer field. -/
theorem sqrt_mono : Monotone Real.sqrt :=
  fun _ _ h => Real.sqrt_le_sqrt h

/-- C7 (amended): the maximum magnetometer variance reported by
`send_status_report` equals the square root of the maximum of the three
magnetometer test ratios and the yaw test ratio; the yaw ratio enters
because `getVariances` substitutes it into each magnetometer axis, so
the reported value is not in general the maximum of the square roots of
the magnetometer ratios alone. -/
theorem C7_magVarMax_includes_yaw (fe : Frontend) (c : Core) :
    (send_status_report fe c).magVarMax =
      Real.sqrt ↑(max (max (max c.magTestRatio.x c.magTestRatio.y)
        c.magTestRatio.z) c.yawTestRatio) := by
  simp only [send_status_report, getVariances]
  push_cast
  rw [← sqrt_mono.map_max, ← sqrt_mono.map_max]
  congr 1
  simp only [max_assoc, max_comm, max_left_comm, max_self]

/-- Counterexample for C7 as stated: with all magnetometer test ratios
zero and yaw test ratio 4, the reported maximum magnetometer variance
is `sqrt 4 = 2`, while the maximum of the square roots of the
magnetometer ratios alone is 0. -/
theorem C7_counterexample :
    (send_status_report baseFrontend
        { baseCore with yawTestRatio := 4 }).magVarMax = 2 ∧
    max (Real.sqrt ↑(({ baseCore with
          yawTestRatio := 4 } : Core).magTestRatio.x))
      (max (Real.sqrt ↑(({ baseCore with
          yawTestRatio := 4 } : Core).magTestRatio.y))
        (Real.sqrt ↑(({ baseCore with
          yawTestRatio := 4 } : Core).magTestRatio.z))) = 0 ∧
    (2 : ℝ) ≠ 0 := by
  refine ⟨?_, ?_, by norm_num⟩
  · have h4 : Real.sqrt (4 : ℝ) = 2 := by
      rw [show (4 : ℝ) = (2 : ℝ) ^ 2 by norm_num, Real.sqrt_sq (by norm_num)]
    have hmax : max (0 : ℚ) 4 = 4 := max_eq_right (by norm_num)
    simp only [send_status_report, getVariances]
    norm_num [baseCore, hmax, h4]
  · norm_num [baseCore, Real.sqrt_zero]

/-- C8: `getVelInnovationsAndVariancesForSource` with source GPS fails
exactly when the elapsed time since the last GPS velocity-innovation
update exceeds 500 ms, and otherwise succeeds with exactly the stored
GPS velocity innovation and variance values. The embedding is a pure
function of the snapshot, so the call modifies no stored state. -/
theorem C8_gps_vel_innovations_staleness (env : Env) (c : Core) :
    (getVelInnovationsAndVariancesForSource env c SourceXY.GPS = none ↔
      500 < u32sub env.millis c.gpsVelInnovTime_ms) ∧
    (∀ iv : Vec3 × Vec3,
      getVelInnovationsAndVariancesForSource env c SourceXY.GPS = some iv →
      iv = (c.gpsVelInnov, c.gpsVelVarInnov)) := by
  constructor
  · simp only [getVelInnovationsAndVariancesForSource]
    split_ifs with h <;> simp [h]
  · intro iv h
    simp only [getVelInnovationsAndVariancesForSource] at h
    split_ifs at h with hs
    all_goals first
      | exact (Option.some.inj h).symm
      | simp at h

/-- Witness for C8: 200 ms after the last GPS update the call succeeds
with the stored values; 1200 ms after it the call fails. -/
theorem C8_witness :
    getVelInnovationsAndVariancesForSource baseEnv baseCore SourceXY.GPS =
      some (⟨1, 2, 3⟩, ⟨4, 5, 6⟩) ∧
    (⟨1, 2, 3⟩, ⟨4, 5, 6⟩) = (baseCore.gpsVelInnov, baseCore.gpsVelVarInnov) ∧
    getVelInnovationsAndVariancesForSource { baseEnv with millis := 6000 }
      baseCore SourceXY.GPS = none := by
  have hres : getVelInnovationsAndVariancesForSource baseEnv baseCore
      SourceXY.GPS = some (⟨1, 2, 3⟩, ⟨4, 5, 6⟩) := by decide
  refine ⟨hres, (C8_gps_vel_innovations_staleness baseEnv baseCore).2 _ hres,
    (C8_gps_vel_innovations_staleness { baseEnv with millis := 6000 }
      baseCore).1.mpr (by decide)⟩

/-- C9: `getHAGL` returns the terrain estimate minus the vertical
position minus the lever-arm offset, and its validity flag holds
exactly when height has not timed out, the ground offset is valid and
`healthy` holds; in particular HAGL validity implies `healthy`. -/
theorem C9_getHAGL_value_and_validity (c : Core) :
    (getHAGL c).1 =
      c.terrainState - c.outputDataNew_position.z - c.posOffsetNED.z ∧
    ((getHAGL c).2 = true ↔
      c.hgtTimeout = false ∧ c.gndOffsetValid = true ∧ healthy c = true) ∧
    ((getHAGL c).2 = true → healthy c = true) := by
  have hiff : (getHAGL c).2 = true ↔
      c.hgtTimeout = false ∧ c.gndOffsetValid = true ∧ healthy c = true := by
    simp [getHAGL, Bool.and_eq_true, Bool.not_eq_true', and_assoc]
  exact ⟨rfl, hiff, fun h => ((hiff.mp h).2).2⟩

/-- Witness for C9: the base snapshot has a valid HAGL and is healthy. -/
theorem C9_witness :
    (getHAGL baseCore).2 = true ∧ healthy baseCore = true :=
  ⟨by decide, (C9_getHAGL_value_and_validity baseCore).2.2 (by decide)⟩

end NavEKF3
